import Mathlib

/-! Shallow embedding of the gemini service.

Shallow embedding of `src/services/geminiService.ts` from the
`omentor.codigodaevolucao` repository, together with proofs about the
API-key fallback logic of the chat service.

Modelling conventions:
* Environment variables are a map `String → Option String`; the TypeScript
  helper `getEnv` only returns truthy values, so empty strings are filtered.
* The external generative-language API is an oracle (`World`): for each
  attempt number it decides whether `chat.sendMessage` succeeds (and with
  which optional text) or throws (with an error payload), and whether
  `chat.getHistory` succeeds (with which transcript) or throws.
* Module-level mutable state (`currentChatSession`, `currentKeyIndexGroupA`)
  becomes an explicit `ServiceState` threaded through the operations.
* Console output is modelled as a list of `LogEntry` values; the run record
  additionally carries ghost observations (the api keys of the sessions on
  which a send was attempted, in order, and the number of `getHistory`
  calls) which exist only to state properties and never influence control
  flow.
* JavaScript truthiness of `a || b` on strings (where `""` is falsy) is
  modelled by `tsOrStr` / `tsOrD` / `tsOrNull`.
-/

namespace GeminiService

/-- Environment-variable lookup table (merging `import.meta.env` and
`process.env`, which the TS `getEnv` helper consults in order). -/
abbrev Env := String → Option String

/-- TS `getEnv`: returns the variable only when it is truthy (non-empty). -/
def getEnv (env : Env) (key : String) : Option String :=
  match env key with
  | some s => if s = "" then none else some s
  | none => none

/-- JavaScript `a || b` on an optional string (empty string is falsy). -/
def tsOrStr (a b : Option String) : Option String :=
  match a with
  | some s => if s = "" then b else some s
  | none => b

/-- JavaScript `a || d` producing a string default (empty string is falsy). -/
def tsOrD (a : Option String) (d : String) : String :=
  match a with
  | some s => if s = "" then d else s
  | none => d

/-- JavaScript `a || null` on an optional string (empty string is falsy). -/
def tsOrNull (a : Option String) : Option String :=
  match a with
  | some s => if s = "" then none else some s
  | none => none

/-- TS `.filter(Boolean)` on a list of optional strings. -/
def filterTruthy (l : List (Option String)) : List String :=
  l.filterMap fun o =>
    match o with
    | some s => if s = "" then none else some s
    | none => none

/-- TS `PRIMARY_KEY = getEnv("API_KEY") || getEnv("VITE_API_KEY") || getEnv("REACT_APP_API_KEY")`. -/
def PRIMARY_KEY (env : Env) : Option String :=
  tsOrStr (getEnv env "API_KEY")
    (tsOrStr (getEnv env "VITE_API_KEY") (getEnv env "REACT_APP_API_KEY"))

/-- Group A (chat / "Main Brain") key list. -/
def GROUP_A_KEYS (env : Env) : List String :=
  filterTruthy
    [tsOrStr (getEnv env "API_KEY_A1") (PRIMARY_KEY env),
     getEnv env "API_KEY_A2",
     getEnv env "API_KEY_A3"]

/-- Group B (mind-map) key list. -/
def GROUP_B_KEYS (env : Env) : List String :=
  filterTruthy [tsOrStr (getEnv env "API_KEY_B1") (PRIMARY_KEY env)]

/-- Model identifier used for all requests. -/
def TEXT_MODEL : String := "gemini-2.0-flash"

/-- Modelled from the spec: the system-instruction constant imported from
`../constants`, whose file is not among the provided sources; its content is
irrelevant to every claim, only its identity as a fixed string matters. -/
def SYSTEM_INSTRUCTION : String := "SYSTEM_INSTRUCTION"

/-- A part of a message: plain text or inline (base64) image data. -/
inductive Part where
  | text (s : String)
  | inlineData (mimeType : String) (data : String)
deriving DecidableEq, Repr

/-- The optional `imagePart` argument of `sendMessageToGemini`. -/
structure ImagePart where
  mimeType : String
  data : String
deriving DecidableEq, Repr

/-- A transcript entry (the `Content` type of the `@google/genai` client). -/
structure Content where
  role : String
  parts : List Part
deriving DecidableEq, Repr

/-- The request configuration passed to `ai.chats.create`. -/
structure ChatConfig where
  systemInstruction : String
  temperature : ℚ
  maxOutputTokens : ℕ
  thinkingBudget : ℕ
deriving DecidableEq, Repr

/-- A chat session object, as created by `createSession`. -/
structure Chat where
  apiKey : String
  model : String
  history : Option (List Content)
  config : ChatConfig
deriving DecidableEq, Repr

/-- Outcome of an external request: the response (with its optional `.text`
field) or a thrown error, whose payload is an arbitrary string. -/
inductive SendOutcome where
  | success (text : Option String)
  | failure (err : String)
deriving DecidableEq, Repr

/-- Oracle for the external generative-language API: the behaviour of
`chat.sendMessage` and `chat.getHistory` at each attempt of a call. -/
structure World where
  send : ℕ → Chat → List Part → SendOutcome
  getHistory : ℕ → Chat → Except String (List Content)

/-- Console output produced by the service. -/
inductive LogEntry where
  | warnKeyFailed (keyNum : ℕ) (err : String)
  | errorAllFailed
  | warnHistFailed (err : String)
  | logSwitching (keyNum : ℕ)
deriving DecidableEq, Repr

/-- Module-level mutable state of the service:
`let currentChatSession: Chat | null = null;`
`let currentKeyIndexGroupA = 0;`. -/
structure ServiceState where
  currentChatSession : Option Chat
  currentKeyIndexGroupA : ℕ
deriving DecidableEq, Repr

/-- The initial module state, as declared at load time. -/
def initialState : ServiceState := ⟨none, 0⟩

/-- Result of one call of `sendMessageToGemini`: the returned string, the
final module state, the console log, and two ghost observations (keys of
the sessions on which a send was attempted, number of `getHistory` calls). -/
structure SendRun where
  result : String
  state : ServiceState
  log : List LogEntry
  attempted : List String
  histCalls : ℕ
deriving DecidableEq, Repr

/-- TS `createSession(apiKey, history?)`. -/
def createSession (apiKey : String) (history : Option (List Content)) : Chat :=
  { apiKey := apiKey
    model := TEXT_MODEL
    history := history
    config :=
      { systemInstruction := SYSTEM_INSTRUCTION
        temperature := (0.7 : ℚ)
        maxOutputTokens := 2000
        thinkingBudget := 0 } }

/-- TS `getOrInitSession()`: when no session is active, reset the key index to 0
and create a session with `GROUP_A_KEYS[0] || "MISSING_KEY"`; otherwise
return the active session unchanged. -/
def getOrInitSession (keys : List String) (st : ServiceState) : Chat × ServiceState :=
  match st.currentChatSession with
  | some c => (c, st)
  | none =>
    let key :=
      match keys.head? with
      | some s => if s = "" then "MISSING_KEY" else s
      | none => "MISSING_KEY"
    let c := createSession key none
    (c, ⟨some c, 0⟩)

/-- The user-parts list: `[{text: message}]`, with the inline image
unshifted to the front when present. -/
def mkParts (message : String) (imagePart : Option ImagePart) : List Part :=
  match imagePart with
  | none => [Part.text message]
  | some ip => [Part.inlineData ip.mimeType ip.data, Part.text message]

/-- Error string returned when `GROUP_A_KEYS` is empty. -/
def CONFIG_ERROR : String :=
  "ERRO DE CONFIGURAÇÃO: API Key não encontrada. Configure VITE_API_KEY ou API_KEY no Vercel."

/-- Error string returned when every Group A key failed. -/
def CRITICAL_ERROR : String :=
  "ERRO CRÍTICO: Sistema indisponível temporariamente. Tente novamente em instantes."

/-- Default returned when the response has no text. -/
def NO_RESPONSE_ERROR : String := "Erro: Sem resposta do Mentor."

/-- String returned should the fallback loop fall through. -/
def UNKNOWN_ERROR : String := "Erro desconhecido de execução."

/-- The fallback loop of `sendMessageToGemini` (`for attempt in 0..keys.length`),
with the remaining iteration count as the first `ℕ` argument and the current
`attempt` value as the second. Each iteration: get or init the session, try
`sendMessage`; on failure log a warning, and unless this was the last key,
retrieve the failed session's history (empty on a `getHistory` error),
rotate `currentKeyIndexGroupA` by one modulo the key count, recreate the
session with the next key and the saved history, and continue. -/
def sendLoop (w : World) (keys : List String) (parts : List Part) :
    ℕ → ℕ → ServiceState → SendRun
  | 0, _, st => ⟨UNKNOWN_ERROR, st, [], [], 0⟩
  | r + 1, attempt, st =>
    let p := getOrInitSession keys st
    match w.send attempt p.1 parts with
    | SendOutcome.success t =>
      ⟨tsOrD t NO_RESPONSE_ERROR, p.2, [], [p.1.apiKey], 0⟩
    | SendOutcome.failure e =>
      if attempt = keys.length - 1 then
        ⟨CRITICAL_ERROR, p.2,
          [LogEntry.warnKeyFailed (p.2.currentKeyIndexGroupA + 1) e,
           LogEntry.errorAllFailed],
          [p.1.apiKey], 0⟩
      else
        let q := getOrInitSession keys p.2
        let hres := w.getHistory attempt q.1
        let previousHistory : List Content :=
          match hres with
          | Except.ok h => h
          | Except.error _ => []
        let hlog : List LogEntry :=
          match hres with
          | Except.ok _ => []
          | Except.error he => [LogEntry.warnHistFailed he]
        let newIdx := (q.2.currentKeyIndexGroupA + 1) % keys.length
        let nextKey := keys.getD newIdx ""
        let st3 : ServiceState := ⟨some (createSession nextKey (some previousHistory)), newIdx⟩
        let rest := sendLoop w keys parts r (attempt + 1) st3
        ⟨rest.result, rest.state,
          LogEntry.warnKeyFailed (p.2.currentKeyIndexGroupA + 1) e ::
            (hlog ++ LogEntry.logSwitching (newIdx + 1) :: rest.log),
          p.1.apiKey :: rest.attempted,
          1 + rest.histCalls⟩

/-- TS `sendMessageToGemini(message, imagePart?)` over an explicit key list:
returns the configuration error when the list is empty, otherwise runs the
fallback loop with `keys.length` iterations starting at attempt 0. -/
def sendMessageToGemini (w : World) (keys : List String) (message : String)
    (imagePart : Option ImagePart) (st : ServiceState) : SendRun :=
  if keys.length = 0 then ⟨CONFIG_ERROR, st, [], [], 0⟩
  else sendLoop w keys (mkParts message imagePart) keys.length 0 st

/-- The function `sendMessageToGemini` as exported by the module: the key list is
`GROUP_A_KEYS` of the ambient environment. -/
def sendMessageToGeminiM (w : World) (env : Env) (message : String)
    (imagePart : Option ImagePart) (st : ServiceState) : SendRun :=
  sendMessageToGemini w (GROUP_A_KEYS env) message imagePart st

/-- The mind-map prompt template, instantiated with the topic. -/
def mindMapPrompt (topic : String) : String :=
  "\n    VOCÊ É UM ARQUITETO DE INFORMAÇÃO DO CÓDIGO DA EVOLUÇÃO.\n    TAREFA: Crie um MAPA MENTAL ESTRUTURAL em texto sobre: \"" ++
  topic ++
  "\".\n    \n    REGRAS VISUAIS:\n    - Use caracteres ASCII/Unicode para conectar (├, └, │, ─).\n    - Não use Markdown de código (```).\n    - O layout deve ser vertical e hierárquico.\n    - Estilo limpo, direto e focado em AÇÃO.\n    \n    EXEMPLO DE SAÍDA:\n    \n    OBJETIVO CENTRAL\n    │\n    ├── FASE 1: FUNDAÇÃO\n    │   ├── Ação Imediata\n    │   └── Bloqueio Mental\n    │\n    └── FASE 2: EXPANSÃO\n        ├── Estratégia\n        └── Execução\n    \n    Gere apenas o mapa. Sem introduções.\n  "

/-- Result of one call of `generateMindMapText`: the returned value and the
ghost list of keys with which a request was attempted, in order. -/
structure MapRun where
  result : Option String
  attempted : List String
deriving DecidableEq, Repr

/-- The Group B fallback loop of `generateMindMapText`
(`for (const key of GROUP_B_KEYS)`), with the attempt index made explicit.
`gen i k prompt` is the oracle for `ai.models.generateContent` at iteration
`i` with key `k`. On success the loop returns `response.text || null`; on a
thrown error it tries the next key; after the loop it returns null. -/
def mindMapLoop (gen : ℕ → String → String → SendOutcome) (prompt : String) :
    List String → ℕ → MapRun
  | [], _ => ⟨none, []⟩
  | k :: rest, i =>
    match gen i k prompt with
    | SendOutcome.success t => ⟨tsOrNull t, [k]⟩
    | SendOutcome.failure _ =>
      let r := mindMapLoop gen prompt rest (i + 1)
      ⟨r.result, k :: r.attempted⟩

/-- TS `generateMindMapText(topic)` over an explicit Group B key list, with the
ghost attempted-keys observation. -/
def generateMindMapTextRun (gen : ℕ → String → String → SendOutcome)
    (keys : List String) (topic : String) : MapRun :=
  mindMapLoop gen (mindMapPrompt topic) keys 0

/-- TS `generateMindMapText(topic)`: the returned `string | null`. -/
def generateMindMapText (gen : ℕ → String → String → SendOutcome)
    (keys : List String) (topic : String) : Option String :=
  (generateMindMapTextRun gen keys topic).result

/-- TS `generateMindMapImage(prompt)`: deprecated, always resolves to null. -/
def generateMindMapImage (_prompt : String) : Option String := none

/-- The function `generateMindMapText` as a state-passing operation: the TS function
contains no assignment to any module variable, so the module state passes
through untouched. -/
def generateMindMapTextS (gen : ℕ → String → String → SendOutcome)
    (keys : List String) (topic : String) (st : ServiceState) :
    Option String × ServiceState :=
  (generateMindMapText gen keys topic, st)

/-- The function `generateMindMapImage` as a state-passing operation (no state access). -/
def generateMindMapImageS (prompt : String) (st : ServiceState) :
    Option String × ServiceState :=
  (generateMindMapImage prompt, st)

/-- Number of active session objects held by the module state. -/
def activeSessions (st : ServiceState) : ℕ :=
  match st.currentChatSession with
  | some _ => 1
  | none => 0

/-- Number of key-failure warnings in a console log. -/
def countWarn : List LogEntry → ℕ
  | [] => 0
  | LogEntry.warnKeyFailed _ _ :: l => countWarn l + 1
  | _ :: l => countWarn l

/-- Number of key-switch messages in a console log. -/
def countSwitch : List LogEntry → ℕ
  | [] => 0
  | LogEntry.logSwitching _ :: l => countSwitch l + 1
  | _ :: l => countSwitch l

/-- Two send outcomes that agree except possibly in the error payload. -/
def sameSend : SendOutcome → SendOutcome → Prop
  | SendOutcome.success t1, SendOutcome.success t2 => t1 = t2
  | SendOutcome.failure _, SendOutcome.failure _ => True
  | _, _ => False

/-- Two history outcomes that agree except possibly in the error payload. -/
def sameHist : Except String (List Content) → Except String (List Content) → Prop
  | Except.ok h1, Except.ok h2 => h1 = h2
  | Except.error _, Except.error _ => True
  | _, _ => False

/-- Two worlds whose requests succeed and fail in exactly the same pattern
with the same payloads on success, differing at most in the kind (payload)
of the errors thrown. -/
def sameShape (w1 w2 : World) : Prop :=
  (∀ n c p, sameSend (w1.send n c p) (w2.send n c p)) ∧
  (∀ n c, sameHist (w1.getHistory n c) (w2.getHistory n c))

/-- The module state produced by the fallback procedure of one failed
attempt from state `st` when the recovered transcript is `h`: the key index
rotated by one modulo the key count, and a fresh session carrying `h` under
the next key. -/
def rotatedState (keys : List String) (st : ServiceState) (h : List Content) : ServiceState :=
  ⟨some (createSession
      (keys.getD (((getOrInitSession keys st).2.currentKeyIndexGroupA + 1) % keys.length) "")
      (some h)),
   ((getOrInitSession keys st).2.currentKeyIndexGroupA + 1) % keys.length⟩

/-- Environment with only `API_KEY_A1` set. -/
def envA1 : Env := fun k => if k = "API_KEY_A1" then some "k1" else none

/-- Environment with no variable set: both key groups are empty. -/
def envNone : Env := fun _ => none

/-- Environment with only the primary `API_KEY` set: both groups fall back
to the same key `"p"`. -/
def envP : Env := fun k => if k = "API_KEY" then some "p" else none

/-- Environment with two distinct Group A keys. -/
def envAB : Env :=
  fun k => if k = "API_KEY_A1" then some "a" else if k = "API_KEY_A2" then some "b" else none

/-- A sample two-entry conversation transcript. -/
def histSample : List Content :=
  [⟨"user", [Part.text "oi"]⟩, ⟨"model", [Part.text "resposta"]⟩]

/-- World in which every send attempt throws. -/
def wFail : World :=
  ⟨fun _ _ _ => SendOutcome.failure "quota exceeded", fun _ _ => Except.ok []⟩

/-- World in which every send succeeds, echoing the session's api key. -/
def wOk : World :=
  ⟨fun _ c _ => SendOutcome.success (some c.apiKey), fun _ _ => Except.ok []⟩

/-- World in which the first attempt throws and later attempts succeed;
history retrieval yields `histSample`. -/
def wFailOnce : World :=
  ⟨fun n _ _ => if n = 0 then SendOutcome.failure "quota" else SendOutcome.success (some "resposta"),
   fun _ _ => Except.ok histSample⟩

/-- World in which the first attempt throws and later attempts echo the
session's api key. -/
def wEcho : World :=
  ⟨fun n c _ => if n = 0 then SendOutcome.failure "e" else SendOutcome.success (some c.apiKey),
   fun _ _ => Except.ok []⟩

/-- World in which every request throws a not-found error. -/
def w404 : World :=
  ⟨fun _ _ _ => SendOutcome.failure "404 model not found", fun _ _ => Except.error "hist lost"⟩

/-- World in which every request throws an overload error. -/
def w503 : World :=
  ⟨fun _ _ _ => SendOutcome.failure "503 overloaded", fun _ _ => Except.error "hist gone"⟩

/-- Mind-map oracle in which every request throws. -/
def genFail : ℕ → String → String → SendOutcome := fun _ _ _ => SendOutcome.failure "err"

/-- A state holding an active session under key `"a"` with key index 0. -/
def stIdx0 : ServiceState := ⟨some (createSession "a" none), 0⟩

/-- The same active session as `stIdx0` but with key index 1. -/
def stIdx1 : ServiceState := ⟨some (createSession "a" none), 1⟩

/-! Helper lemmas about the embedded operations. -/

/-- A non-empty slot makes `getOrInitSession` a pure read. -/
theorem getOrInit_of_some (keys : List String) (st : ServiceState) (c : Chat)
    (h : st.currentChatSession = some c) : getOrInitSession keys st = (c, st) := by
  simp [getOrInitSession, h]

/-- After `getOrInitSession`, the slot holds the returned session. -/
theorem getOrInit_slot (keys : List String) (st : ServiceState) :
    (getOrInitSession keys st).2.currentChatSession = some (getOrInitSession keys st).1 := by
  rcases h : st.currentChatSession with _ | c <;> simp [getOrInitSession, h]

/-- Applying `getOrInitSession` twice is the same as applying it once. -/
theorem getOrInit_getOrInit (keys : List String) (st : ServiceState) :
    getOrInitSession keys (getOrInitSession keys st).2 = getOrInitSession keys st := by
  rw [getOrInit_of_some keys _ _ (getOrInit_slot keys st)]

/-- The call `getOrInitSession` keeps the key index below the key count. -/
theorem getOrInit_idx_lt (keys : List String) (st : ServiceState)
    (hne : keys ≠ []) (h : st.currentKeyIndexGroupA < keys.length) :
    (getOrInitSession keys st).2.currentKeyIndexGroupA < keys.length := by
  rcases hs : st.currentChatSession with _ | c
  · simpa [getOrInitSession, hs] using List.length_pos.mpr hne
  · simpa [getOrInitSession, hs] using h

/-- The fallback loop keeps the key index below the key count. -/
theorem sendLoop_idx_lt (w : World) (keys : List String) (parts : List Part)
    (hne : keys ≠ []) (r : ℕ) :
    ∀ attempt st, st.currentKeyIndexGroupA < keys.length →
      (sendLoop w keys parts r attempt st).state.currentKeyIndexGroupA < keys.length := by
  induction r with
  | zero => intro attempt st h; simpa [sendLoop] using h
  | succ r ih =>
    intro attempt st h
    by_cases hlast : attempt = keys.length - 1
    · subst hlast
      rcases hs : w.send (keys.length - 1) (getOrInitSession keys st).1 parts with t | e <;>
        simpa [sendLoop, hs] using getOrInit_idx_lt keys st hne h
    · rcases hs : w.send attempt (getOrInitSession keys st).1 parts with t | e
      · simpa [sendLoop, hs] using getOrInit_idx_lt keys st hne h
      · simp only [sendLoop, hs, if_neg hlast, getOrInit_getOrInit]
        exact ih (attempt + 1) _ (Nat.mod_lt _ (List.length_pos.mpr hne))

/-- The counter `countWarn` distributes over append. -/
theorem countWarn_append (l1 l2 : List LogEntry) :
    countWarn (l1 ++ l2) = countWarn l1 + countWarn l2 := by
  induction l1 with
  | nil => simp [countWarn]
  | cons a l ih => cases a <;> simp [countWarn, ih, Nat.add_right_comm]

/-- The counter `countSwitch` distributes over append. -/
theorem countSwitch_append (l1 l2 : List LogEntry) :
    countSwitch (l1 ++ l2) = countSwitch l1 + countSwitch l2 := by
  induction l1 with
  | nil => simp [countSwitch]
  | cons a l ih => cases a <;> simp [countSwitch, ih, Nat.add_right_comm]

/-- Characterisation of the fallback loop when every send attempt throws:
it returns the critical-error string, attempts one send per remaining
iteration, warns once per failure, and performs one history retrieval and
one key switch per non-final failure. -/
theorem sendLoop_allFail (w : World) (keys : List String) (parts : List Part)
    (hfail : ∀ n c p, ∃ e, w.send n c p = SendOutcome.failure e) (r : ℕ) :
    ∀ attempt st, attempt + r = keys.length → 1 ≤ r →
      (sendLoop w keys parts r attempt st).result = CRITICAL_ERROR ∧
      (sendLoop w keys parts r attempt st).attempted.length = r ∧
      countWarn (sendLoop w keys parts r attempt st).log = r ∧
      countSwitch (sendLoop w keys parts r attempt st).log = r - 1 ∧
      (sendLoop w keys parts r attempt st).histCalls = r - 1 := by
  induction r with
  | zero => intro attempt st _ hpos; exact absurd hpos (by omega)
  | succ r ih =>
    intro attempt st hsum _
    obtain ⟨e, he⟩ := hfail attempt (getOrInitSession keys st).1 parts
    by_cases hlast : attempt = keys.length - 1
    · have hr : r = 0 := by omega
      subst hr
      simp [sendLoop, he, if_pos hlast, countWarn, countSwitch]
    · have hr : 1 ≤ r := by omega
      have hsum' : (attempt + 1) + r = keys.length := by omega
      simp only [sendLoop, he, if_neg hlast, getOrInit_getOrInit]
      have ih' := fun s => ih (attempt + 1) s hsum' hr
      rcases hh : w.getHistory attempt (getOrInitSession keys st).1 with he' | hv <;>
      · simp only [hh]
        simp [countWarn, countSwitch, countWarn_append, countSwitch_append, ih']
        omega


/-- The fallback loop attempts at most one send per iteration, and its
result is a successful response's text (with the no-response default) or
one of the two loop error strings. -/
theorem sendLoop_result (w : World) (keys : List String) (parts : List Part) (r : ℕ) :
    ∀ attempt st,
      (sendLoop w keys parts r attempt st).attempted.length ≤ r ∧
      ((∃ n c t, w.send n c parts = SendOutcome.success t ∧
          (sendLoop w keys parts r attempt st).result = tsOrD t NO_RESPONSE_ERROR) ∨
        (sendLoop w keys parts r attempt st).result = CRITICAL_ERROR ∨
        (sendLoop w keys parts r attempt st).result = UNKNOWN_ERROR) := by
  induction r with
  | zero => intro attempt st; simp [sendLoop]
  | succ r ih =>
    intro attempt st
    rcases hs : w.send attempt (getOrInitSession keys st).1 parts with t | e
    · refine ⟨by simp [sendLoop, hs], Or.inl ⟨attempt, (getOrInitSession keys st).1, t, hs, ?_⟩⟩
      simp [sendLoop, hs]
    · by_cases hlast : attempt = keys.length - 1
      · exact ⟨by simp [sendLoop, hs, if_pos hlast],
          Or.inr (Or.inl (by simp [sendLoop, hs, if_pos hlast]))⟩
      · simp only [sendLoop, hs, if_neg hlast, getOrInit_getOrInit]
        rcases hh : w.getHistory attempt (getOrInitSession keys st).1 with he' | hv <;>
        · simp only [hh]
          exact ⟨Nat.succ_le_succ (ih (attempt + 1) _).1, (ih (attempt + 1) _).2⟩

/-- Runs of the fallback loop in two worlds whose failures differ only in
the error payload produce the same result and the same final state. -/
theorem sendLoop_sameShape (w1 w2 : World) (hs : sameShape w1 w2)
    (keys : List String) (parts : List Part) (r : ℕ) :
    ∀ attempt st,
      (sendLoop w1 keys parts r attempt st).result =
        (sendLoop w2 keys parts r attempt st).result ∧
      (sendLoop w1 keys parts r attempt st).state =
        (sendLoop w2 keys parts r attempt st).state := by
  induction r with
  | zero => intro attempt st; exact ⟨rfl, rfl⟩
  | succ r ih =>
    intro attempt st
    have hsend := hs.1 attempt (getOrInitSession keys st).1 parts
    rcases h1 : w1.send attempt (getOrInitSession keys st).1 parts with t1 | e1 <;>
      rcases h2 : w2.send attempt (getOrInitSession keys st).1 parts with t2 | e2 <;>
      rw [h1, h2] at hsend <;> simp only [sameSend] at hsend
    · subst hsend
      simp [sendLoop, h1, h2]
    · by_cases hlast : attempt = keys.length - 1
      · simp [sendLoop, h1, h2, if_pos hlast]
      · have hhist := hs.2 attempt (getOrInitSession keys st).1
        rcases hh1 : w1.getHistory attempt (getOrInitSession keys st).1 with a1 | b1 <;>
          rcases hh2 : w2.getHistory attempt (getOrInitSession keys st).1 with a2 | b2 <;>
          rw [hh1, hh2] at hhist <;> simp only [sameHist] at hhist
        · simp only [sendLoop, h1, h2, if_neg hlast, getOrInit_getOrInit, hh1, hh2]
          exact ⟨(ih (attempt + 1) _).1, (ih (attempt + 1) _).2⟩
        · subst hhist
          simp only [sendLoop, h1, h2, if_neg hlast, getOrInit_getOrInit, hh1, hh2]
          exact ⟨(ih (attempt + 1) _).1, (ih (attempt + 1) _).2⟩

/-- The session returned by `getOrInitSession` carries a key of the list,
provided the list is non-empty without empty strings and any already-active
session does. -/
theorem getOrInit_key_mem (keys : List String) (st : ServiceState)
    (hne : keys ≠ []) (hemp : "" ∉ keys)
    (hinv : ∀ c, st.currentChatSession = some c → c.apiKey ∈ keys) :
    (getOrInitSession keys st).1.apiKey ∈ keys := by
  rcases h : st.currentChatSession with _ | c
  · rcases keys with _ | ⟨k, l⟩
    · exact absurd rfl hne
    · have hk : ¬k = "" := fun hk => hemp (hk ▸ List.mem_cons_self k l)
      simp [getOrInitSession, h, createSession, hk]
  · rw [getOrInit_of_some keys st c h]
    exact hinv c h

/-- The call `getOrInitSession` preserves the slot-key invariant. -/
theorem getOrInit_inv (keys : List String) (st : ServiceState)
    (hne : keys ≠ []) (hemp : "" ∉ keys)
    (hinv : ∀ c, st.currentChatSession = some c → c.apiKey ∈ keys) :
    ∀ c, (getOrInitSession keys st).2.currentChatSession = some c → c.apiKey ∈ keys := by
  intro c hc
  rw [getOrInit_slot keys st] at hc
  exact Option.some.inj hc ▸ getOrInit_key_mem keys st hne hemp hinv

/-- A default access at an index below the length is a member. -/
theorem getD_mem_of_lt (keys : List String) (n : ℕ) (hn : n < keys.length) (d : String) :
    keys.getD n d ∈ keys := by
  rw [List.getD_eq_getElem keys d hn]
  exact List.getElem_mem hn

/-- Every send of the fallback loop uses a key of the given list, and the
slot-key invariant is preserved, provided the list is non-empty without
empty strings. -/
theorem sendLoop_keys (w : World) (keys : List String) (parts : List Part)
    (hne : keys ≠ []) (hemp : "" ∉ keys) (r : ℕ) :
    ∀ attempt st, (∀ c, st.currentChatSession = some c → c.apiKey ∈ keys) →
      (∀ k ∈ (sendLoop w keys parts r attempt st).attempted, k ∈ keys) ∧
      (∀ c, (sendLoop w keys parts r attempt st).state.currentChatSession = some c →
        c.apiKey ∈ keys) := by
  induction r with
  | zero => intro attempt st hinv; exact ⟨by simp [sendLoop], by simpa [sendLoop] using hinv⟩
  | succ r ih =>
    intro attempt st hinv
    rcases hs : w.send attempt (getOrInitSession keys st).1 parts with t | e
    · refine ⟨?_, ?_⟩
      · simpa [sendLoop, hs] using getOrInit_key_mem keys st hne hemp hinv
      · simpa [sendLoop, hs] using getOrInit_inv keys st hne hemp hinv
    · by_cases hlast : attempt = keys.length - 1
      · refine ⟨?_, ?_⟩
        · simpa [sendLoop, hs, if_pos hlast] using getOrInit_key_mem keys st hne hemp hinv
        · simpa [sendLoop, hs, if_pos hlast] using getOrInit_inv keys st hne hemp hinv
      · have hpos : 0 < keys.length := List.length_pos.mpr hne
        simp only [sendLoop, hs, if_neg hlast, getOrInit_getOrInit]
        rcases hh : w.getHistory attempt (getOrInitSession keys st).1 with he' | hv <;>
        · simp only [hh]
          refine ⟨?_, (ih (attempt + 1) _ ?_).2⟩
          · intro k hk
            rcases List.mem_cons.mp hk with hk | hk
            · exact hk ▸ getOrInit_key_mem keys st hne hemp hinv
            · refine (ih (attempt + 1) _ ?_).1 k hk
              intro c1 hc1
              cases Option.some.inj hc1
              exact getD_mem_of_lt keys _ (Nat.mod_lt _ hpos) ""
          · intro c1 hc1
            cases Option.some.inj hc1
            exact getD_mem_of_lt keys _ (Nat.mod_lt _ hpos) ""

/-- Elements of `filterTruthy` are never the empty string. -/
theorem filterTruthy_ne_empty (l : List (Option String)) : ∀ s ∈ filterTruthy l, s ≠ "" := by
  intro s hs
  simp only [filterTruthy, List.mem_filterMap] at hs
  obtain ⟨o, _, ho⟩ := hs
  rcases o with _ | t
  · simp at ho
  · by_cases ht : t = ""
    · simp [ht] at ho
    · simp [ht] at ho
      exact ho ▸ ht

/-- When every mind-map request throws, the Group B loop yields null. -/
theorem mindMapLoop_allFail (gen : ℕ → String → String → SendOutcome) (prompt : String)
    (hf : ∀ i k pr, ∃ e, gen i k pr = SendOutcome.failure e) :
    ∀ l i, (mindMapLoop gen prompt l i).result = none := by
  intro l
  induction l with
  | nil => intro i; rfl
  | cons k rest ih =>
    intro i
    obtain ⟨e, he⟩ := hf i k prompt
    simp [mindMapLoop, he, ih]

/-- The Group B loop yields null or the text of some successful request. -/
theorem mindMapLoop_result (gen : ℕ → String → String → SendOutcome) (prompt : String) :
    ∀ l i,
      (mindMapLoop gen prompt l i).result = none ∨
        ∃ j k t, k ∈ l ∧ gen j k prompt = SendOutcome.success t ∧
          (mindMapLoop gen prompt l i).result = tsOrNull t := by
  intro l
  induction l with
  | nil => intro i; exact Or.inl rfl
  | cons k rest ih =>
    intro i
    rcases hg : gen i k prompt with t | e
    · exact Or.inr ⟨i, k, t, List.mem_cons_self k rest, hg, by simp [mindMapLoop, hg]⟩
    · rcases ih (i + 1) with h | ⟨j, k1, t, hk, hgen, hres⟩
      · exact Or.inl (by simp [mindMapLoop, hg, h])
      · refine Or.inr ⟨j, k1, t, List.mem_cons_of_mem k hk, hgen, ?_⟩
        simpa [mindMapLoop, hg] using hres

/-- The Group B loop only attempts keys of its list. -/
theorem mindMapLoop_attempted (gen : ℕ → String → String → SendOutcome) (prompt : String) :
    ∀ l i, ∀ k ∈ (mindMapLoop gen prompt l i).attempted, k ∈ l := by
  intro l
  induction l with
  | nil => intro i k hk; simp [mindMapLoop] at hk
  | cons k0 rest ih =>
    intro i k hk
    rcases hg : gen i k0 prompt with t | e
    · simp [mindMapLoop, hg] at hk
      exact hk ▸ List.mem_cons_self k0 rest
    · simp only [mindMapLoop, hg] at hk
      rcases List.mem_cons.mp hk with h | h
      · exact h ▸ List.mem_cons_self k0 rest
      · exact List.mem_cons_of_mem k0 (ih (i + 1) k h)

/-! Claim theorems. -/

/-- Claim C1: with a non-empty Group A key list, when every send attempt
fails, `sendMessageToGemini` warns once per failed attempt, attempts a
history recovery and a key rotation per non-final failure, tries every
configured credential (one send per key), and returns the Portuguese
critical-error string instead of raising. -/
theorem sendMessage_allKeysFail (w : World) (env : Env) (msg : String)
    (img : Option ImagePart) (st : ServiceState)
    (hne : GROUP_A_KEYS env ≠ [])
    (hfail : ∀ n c p, ∃ e, w.send n c p = SendOutcome.failure e) :
    (sendMessageToGeminiM w env msg img st).result = CRITICAL_ERROR ∧
    (sendMessageToGeminiM w env msg img st).attempted.length = (GROUP_A_KEYS env).length ∧
    countWarn (sendMessageToGeminiM w env msg img st).log = (GROUP_A_KEYS env).length ∧
    countSwitch (sendMessageToGeminiM w env msg img st).log = (GROUP_A_KEYS env).length - 1 ∧
    (sendMessageToGeminiM w env msg img st).histCalls = (GROUP_A_KEYS env).length - 1 := by
  have hlen : ¬(GROUP_A_KEYS env).length = 0 :=
    fun hh => hne (List.length_eq_zero.mp hh)
  have h := sendLoop_allFail w (GROUP_A_KEYS env) (mkParts msg img) hfail
    (GROUP_A_KEYS env).length 0 st (by omega) (by omega)
  simp only [sendMessageToGeminiM, sendMessageToGemini]
  rw [if_neg hlen]
  exact h

/-- Witness for C1 at a two-key environment and an all-failing world. -/
theorem sendMessage_allKeysFail_witness :
    (sendMessageToGeminiM wFail envAB "oi" none initialState).result = CRITICAL_ERROR ∧
    (sendMessageToGeminiM wFail envAB "oi" none initialState).attempted.length =
      (GROUP_A_KEYS envAB).length := by
  have h := sendMessage_allKeysFail wFail envAB "oi" none initialState (by decide)
    (fun n c p => ⟨"quota exceeded", rfl⟩)
  exact ⟨h.1, h.2.1⟩

/-- Claim C2: every call of `sendMessageToGemini` performs at most
`GROUP_A_KEYS.length` send attempts and terminates with either a model
response (possibly defaulted) or one of the error strings. -/
theorem sendMessage_attempts_bounded (w : World) (env : Env) (msg : String)
    (img : Option ImagePart) (st : ServiceState) :
    (sendMessageToGeminiM w env msg img st).attempted.length ≤ (GROUP_A_KEYS env).length ∧
    ((∃ n c t, w.send n c (mkParts msg img) = SendOutcome.success t ∧
        (sendMessageToGeminiM w env msg img st).result = tsOrD t NO_RESPONSE_ERROR) ∨
      (sendMessageToGeminiM w env msg img st).result = CONFIG_ERROR ∨
      (sendMessageToGeminiM w env msg img st).result = CRITICAL_ERROR ∨
      (sendMessageToGeminiM w env msg img st).result = UNKNOWN_ERROR) := by
  by_cases h : GROUP_A_KEYS env = []
  · simp [sendMessageToGeminiM, sendMessageToGemini, h, CONFIG_ERROR]
  · have h0 : ¬(GROUP_A_KEYS env).length = 0 :=
      fun hh => h (List.length_eq_zero.mp hh)
    have hd := sendLoop_result w (GROUP_A_KEYS env) (mkParts msg img)
      (GROUP_A_KEYS env).length 0 st
    simp only [sendMessageToGeminiM, sendMessageToGemini]
    rw [if_neg h0]
    refine ⟨hd.1, ?_⟩
    rcases hd.2 with h1 | h1 | h1
    · exact Or.inl h1
    · exact Or.inr (Or.inr (Or.inl h1))
    · exact Or.inr (Or.inr (Or.inr h1))

/-- Claim C3: when a send attempt fails and it was not the last key, one
iteration of the fallback loop recovers the failed session's transcript
`h`, rotates to the next key, recreates the session with exactly that
transcript, and retries on it (the loop continues at the next attempt from
the rotated state). -/
theorem sendLoop_failure_carries_history (w : World) (keys : List String)
    (parts : List Part) (r attempt : ℕ) (st : ServiceState) (h : List Content) (e : String)
    (hlast : attempt ≠ keys.length - 1)
    (hsend : w.send attempt (getOrInitSession keys st).1 parts = SendOutcome.failure e)
    (hhist : w.getHistory attempt (getOrInitSession keys st).1 = Except.ok h) :
    sendLoop w keys parts (r + 1) attempt st =
      ⟨(sendLoop w keys parts r (attempt + 1) (rotatedState keys st h)).result,
       (sendLoop w keys parts r (attempt + 1) (rotatedState keys st h)).state,
       LogEntry.warnKeyFailed ((getOrInitSession keys st).2.currentKeyIndexGroupA + 1) e ::
         LogEntry.logSwitching
           ((((getOrInitSession keys st).2.currentKeyIndexGroupA + 1) % keys.length) + 1) ::
         (sendLoop w keys parts r (attempt + 1) (rotatedState keys st h)).log,
       (getOrInitSession keys st).1.apiKey ::
         (sendLoop w keys parts r (attempt + 1) (rotatedState keys st h)).attempted,
       1 + (sendLoop w keys parts r (attempt + 1) (rotatedState keys st h)).histCalls⟩ ∧
    (rotatedState keys st h).currentChatSession =
      some (createSession
        (keys.getD (((getOrInitSession keys st).2.currentKeyIndexGroupA + 1) % keys.length) "")
        (some h)) := by
  refine ⟨?_, rfl⟩
  simp [sendLoop, hsend, if_neg hlast, getOrInit_getOrInit, hhist, rotatedState]

/-- Witness for C3: after the first key fails, the replacement session
holds the recovered transcript under the second key, and the retry on it
succeeds. -/
theorem sendLoop_failure_carries_history_witness :
    (sendLoop wFailOnce ["a", "b"] [Part.text "oi"] 2 0 initialState).state.currentChatSession =
      some (createSession "b" (some histSample)) ∧
    (sendLoop wFailOnce ["a", "b"] [Part.text "oi"] 2 0 initialState).result = "resposta" := by
  have hw := sendLoop_failure_carries_history wFailOnce ["a", "b"] [Part.text "oi"] 1 0
    initialState histSample "quota" (by decide) rfl rfl
  rw [hw.1]
  exact ⟨rfl, rfl⟩

/-- Claim C4 (counterexample): the module's mutable state is not the
active-session slot alone: two states with the same slot but different
`currentKeyIndexGroupA` yield different results from `sendMessageToGemini`,
so a second shared mutable resource (the key index) affects behaviour. -/
theorem mutable_state_beyond_slot_cex :
    stIdx0.currentChatSession = stIdx1.currentChatSession ∧
    (sendMessageToGeminiM wEcho envAB "m" none stIdx0).result ≠
      (sendMessageToGeminiM wEcho envAB "m" none stIdx1).result := by
  exact ⟨rfl, by decide⟩

/-- Claim C4 (amended): the module's mutable state is the active-session
slot plus the Group A key index; every operation keeps at most one session
object active, and the mind-map operations access no module state at all. -/
theorem session_slot_at_most_one (w : World) (env : Env) (msg : String)
    (img : Option ImagePart) (st : ServiceState)
    (gen : ℕ → String → String → SendOutcome) (keys : List String) (topic p : String) :
    activeSessions st ≤ 1 ∧
    activeSessions (sendMessageToGeminiM w env msg img st).state ≤ 1 ∧
    (generateMindMapTextS gen keys topic st).2 = st ∧
    (generateMindMapImageS p st).2 = st := by
  refine ⟨?_, ?_, rfl, rfl⟩
  · rcases h : st.currentChatSession with _ | c
    · simp [activeSessions, h]
    · simp [activeSessions, h]
  · rcases h : (sendMessageToGeminiM w env msg img st).state.currentChatSession with _ | c
    · simp [activeSessions, h]
    · simp [activeSessions, h]

/-- Claim C6: the handling of a failed send has no error taxonomy: two
worlds whose requests fail at the same points but with different kinds of
errors produce the same returned string and the same final module state. -/
theorem sendMessage_error_kind_irrelevant (w1 w2 : World) (env : Env) (msg : String)
    (img : Option ImagePart) (st : ServiceState) (hs : sameShape w1 w2) :
    (sendMessageToGeminiM w1 env msg img st).result =
      (sendMessageToGeminiM w2 env msg img st).result ∧
    (sendMessageToGeminiM w1 env msg img st).state =
      (sendMessageToGeminiM w2 env msg img st).state := by
  by_cases h : GROUP_A_KEYS env = []
  · simp [sendMessageToGeminiM, sendMessageToGemini, h]
  · have h0 : ¬(GROUP_A_KEYS env).length = 0 :=
      fun hh => h (List.length_eq_zero.mp hh)
    have hss := sendLoop_sameShape w1 w2 hs (GROUP_A_KEYS env) (mkParts msg img)
      (GROUP_A_KEYS env).length 0 st
    simp only [sendMessageToGeminiM, sendMessageToGemini]
    rw [if_neg h0, if_neg h0]
    exact hss

/-- Witness for C6: a 404-style world and a 503-style world (same failure
pattern, different error kinds) give the same result. -/
theorem sendMessage_error_kind_irrelevant_witness :
    (sendMessageToGeminiM w404 envAB "oi" none initialState).result =
      (sendMessageToGeminiM w503 envAB "oi" none initialState).result :=
  (sendMessage_error_kind_irrelevant w404 w503 envAB "oi" none initialState
    ⟨fun _ _ _ => trivial, fun _ _ => trivial⟩).1

/-- Claim C7 (counterexample): the two key groups are not disjoint: with
only the primary `API_KEY` configured, both groups hold the key `"p"`, and
the chat send attempt uses a key that belongs to Group B's list. -/
theorem groups_share_primary_key_cex :
    (sendMessageToGeminiM wOk envP "oi" none initialState).attempted = ["p"] ∧
    "p" ∈ GROUP_B_KEYS envP := by
  exact ⟨by decide, by decide⟩

/-- Claim C7 (amended): each operation draws its request keys only from its
own group's ordered list — `sendMessageToGemini` from Group A (with the
slot-key invariant preserved) and `generateMindMapText` from Group B —
though the two lists may share a key, such as the primary fallback. -/
theorem sendMessage_uses_only_groupA_keys (w : World) (env : Env) (msg : String)
    (img : Option ImagePart) (st : ServiceState)
    (gen : ℕ → String → String → SendOutcome) (topic : String)
    (hinv : ∀ c, st.currentChatSession = some c → c.apiKey ∈ GROUP_A_KEYS env) :
    (∀ k ∈ (sendMessageToGeminiM w env msg img st).attempted, k ∈ GROUP_A_KEYS env) ∧
    (∀ c, (sendMessageToGeminiM w env msg img st).state.currentChatSession = some c →
      c.apiKey ∈ GROUP_A_KEYS env) ∧
    (∀ k ∈ (generateMindMapTextRun gen (GROUP_B_KEYS env) topic).attempted,
      k ∈ GROUP_B_KEYS env) := by
  by_cases h : GROUP_A_KEYS env = []
  · refine ⟨?_, ?_, mindMapLoop_attempted gen (mindMapPrompt topic) (GROUP_B_KEYS env) 0⟩
    · simp [sendMessageToGeminiM, sendMessageToGemini, h]
    · simp only [sendMessageToGeminiM, sendMessageToGemini]
      rw [if_pos (show (GROUP_A_KEYS env).length = 0 by rw [h]; rfl)]
      exact hinv
  · have h0 : ¬(GROUP_A_KEYS env).length = 0 :=
      fun hh => h (List.length_eq_zero.mp hh)
    have hemp : "" ∉ GROUP_A_KEYS env := fun hh => filterTruthy_ne_empty _ "" hh rfl
    have hk := sendLoop_keys w (GROUP_A_KEYS env) (mkParts msg img) h hemp
      (GROUP_A_KEYS env).length 0 st hinv
    refine ⟨?_, ?_, mindMapLoop_attempted gen (mindMapPrompt topic) (GROUP_B_KEYS env) 0⟩
    · simp only [sendMessageToGeminiM, sendMessageToGemini]
      rw [if_neg h0]
      exact hk.1
    · simp only [sendMessageToGeminiM, sendMessageToGemini]
      rw [if_neg h0]
      exact hk.2

/-- Witness for C7 (amended): the key attempted from the empty initial
state belongs to Group A. -/
theorem sendMessage_uses_only_groupA_keys_witness :
    "a" ∈ GROUP_A_KEYS envAB :=
  (sendMessage_uses_only_groupA_keys wOk envAB "oi" none initialState genFail "t"
    (fun c hc => absurd hc (by simp [initialState]))).1 "a" (by decide)

/-- Claim C5: the function `getOrInitSession` is lazy: with a session active it returns
that session and leaves the state untouched; with an empty slot it resets
the key index to 0 and creates a session with the first Group A key. -/
theorem getOrInitSession_lazy (env : Env) (st : ServiceState) :
    (∀ c, st.currentChatSession = some c →
      getOrInitSession (GROUP_A_KEYS env) st = (c, st)) ∧
    (st.currentChatSession = none →
      ∀ k l, GROUP_A_KEYS env = k :: l →
        getOrInitSession (GROUP_A_KEYS env) st =
          (createSession k none, ⟨some (createSession k none), 0⟩)) := by
  constructor
  · intro c h
    exact getOrInit_of_some _ st c h
  · intro hnone k l hkl
    have hk : k ≠ "" :=
      filterTruthy_ne_empty _ k (hkl ▸ List.mem_cons_self k l)
    rw [hkl]
    simp [getOrInitSession, hnone, hk]

/-- Witness for C5 at a one-key environment and the empty initial state. -/
theorem getOrInitSession_lazy_witness :
    getOrInitSession (GROUP_A_KEYS envA1) initialState =
      (createSession "k1" none, ⟨some (createSession "k1" none), 0⟩) :=
  (getOrInitSession_lazy envA1 initialState).2 rfl "k1" [] (by decide)

/-- Claim C8: with an empty Group A key list, `sendMessageToGemini`
returns the Portuguese configuration-error string at once, with no send
attempt, no log output, and the module state unchanged. -/
theorem sendMessage_emptyKeys_immediate (w : World) (env : Env) (msg : String)
    (img : Option ImagePart) (st : ServiceState) (h : GROUP_A_KEYS env = []) :
    sendMessageToGeminiM w env msg img st = ⟨CONFIG_ERROR, st, [], [], 0⟩ := by
  simp [sendMessageToGeminiM, sendMessageToGemini, h]

/-- Witness for C8 at the all-empty environment. -/
theorem sendMessage_emptyKeys_immediate_witness :
    sendMessageToGeminiM wFail envNone "oi" none initialState =
      ⟨CONFIG_ERROR, initialState, [], [], 0⟩ :=
  sendMessage_emptyKeys_immediate wFail envNone "oi" none initialState rfl

/-- Claim C9: with a non-empty Group A list, both `sendMessageToGemini`
and `getOrInitSession` keep `currentKeyIndexGroupA` strictly below the key
count, so `GROUP_A_KEYS[currentKeyIndexGroupA]` stays in bounds. -/
theorem currentKeyIndex_in_range (w : World) (env : Env) (msg : String)
    (img : Option ImagePart) (st : ServiceState)
    (hne : GROUP_A_KEYS env ≠ [])
    (hlt : st.currentKeyIndexGroupA < (GROUP_A_KEYS env).length) :
    (sendMessageToGeminiM w env msg img st).state.currentKeyIndexGroupA <
      (GROUP_A_KEYS env).length ∧
    (getOrInitSession (GROUP_A_KEYS env) st).2.currentKeyIndexGroupA <
      (GROUP_A_KEYS env).length := by
  refine ⟨?_, getOrInit_idx_lt _ st hne hlt⟩
  have h0 : ¬(GROUP_A_KEYS env).length = 0 :=
    fun hh => hne (List.length_eq_zero.mp hh)
  simp only [sendMessageToGeminiM, sendMessageToGemini]
  rw [if_neg h0]
  exact sendLoop_idx_lt w (GROUP_A_KEYS env) (mkParts msg img) hne
    (GROUP_A_KEYS env).length 0 st hlt

/-- Witness for C9 at a two-key environment and an all-failing world. -/
theorem currentKeyIndex_in_range_witness :
    (sendMessageToGeminiM wFail envAB "oi" none initialState).state.currentKeyIndexGroupA <
      (GROUP_A_KEYS envAB).length :=
  (currentKeyIndex_in_range wFail envAB "oi" none initialState (by decide) (by decide)).1

/-- Claim C10: the function `generateMindMapText` never raises: it returns null when the
Group B list is empty or every request fails, and otherwise null or the
text of a successful request; `generateMindMapImage` always returns null. -/
theorem mindMap_never_raises (gen : ℕ → String → String → SendOutcome)
    (keys : List String) (topic p : String) :
    (keys = [] → generateMindMapText gen keys topic = none) ∧
    ((∀ i k pr, ∃ e, gen i k pr = SendOutcome.failure e) →
      generateMindMapText gen keys topic = none) ∧
    (generateMindMapText gen keys topic = none ∨
      ∃ j k t, k ∈ keys ∧ gen j k (mindMapPrompt topic) = SendOutcome.success t ∧
        generateMindMapText gen keys topic = tsOrNull t) ∧
    generateMindMapImage p = none := by
  refine ⟨?_, ?_, ?_, rfl⟩
  · intro h
    subst h
    rfl
  · intro hf
    exact mindMapLoop_allFail gen (mindMapPrompt topic) hf keys 0
  · exact mindMapLoop_result gen (mindMapPrompt topic) keys 0

/-- Witness for C10 at an all-failing oracle with one key. -/
theorem mindMap_never_raises_witness :
    generateMindMapText genFail ["k"] "t" = none ∧ generateMindMapImage "p" = none :=
  ⟨(mindMap_never_raises genFail ["k"] "t" "p").2.1 (fun _ _ _ => ⟨"err", rfl⟩),
   (mindMap_never_raises genFail ["k"] "t" "p").2.2.2⟩

end GeminiService
